import Mathlib

/-!
Shallow embedding of `flygym/envs/nmf_mujoco.py` (class `NeuroMechFlyMuJoCo`).

The repository is a configuration/orchestration shim over the MuJoCo physics
engine.  External collaborators (the MuJoCo model asset, the pose YAML files,
numpy's `deg2rad`, the physics stepper, sensor readout, the rasterizer and the
quaternion-to-Euler conversion) are modelled as explicit parameters
(`ExternalWorld`, `Ext`); everything else is translated from the source.
Python exceptions are modelled with `Except PyErr`; Python dictionaries are
ordered association lists with string keys.
-/

set_option maxHeartbeats 1000000

namespace FlyGym

/-- Python-style dictionary: ordered association list with string keys. -/
abbrev Dict (α : Type) := List (String × α)

/-- Dictionary lookup `d[k]`: first binding whose key equals `k`. -/
def lookupD {α : Type} : Dict α → String → Option α
  | [], _ => none
  | (k2, v) :: t, k => if k2 = k then some v else lookupD t k

/-- Python item assignment `d[k] = v`: replace the binding if the key is
present, otherwise append a new binding (insertion order preserved). -/
def setKey {α : Type} : Dict α → String → α → Dict α
  | [], k, v => [(k, v)]
  | (k2, v2) :: t, k, v =>
      if k2 = k then (k, v) :: t else (k2, v2) :: setKey t k v

/-- Python `d.update(u)` in expression form: iterate over `u`'s items in
order, assigning each into `d`.  This is the merge used at construction
(lines 190-201 of the source). -/
def updateD {α : Type} (d u : Dict α) : Dict α :=
  u.foldl (fun acc kv => setKey acc kv.1 kv.2) d

/-- The keys of a dictionary, in order. -/
def keysD {α : Type} (d : Dict α) : List String := d.map Prod.fst

/-- Python values occurring in the module-level configuration defaults:
numbers, tuples, and the literal `...` (Ellipsis, used in the `ball` entry). -/
inductive PyVal : Type where
  | num (q : ℚ)
  | tup (l : List PyVal)
  | ellipsis

/-- Python exceptions raised (directly or by collaborators) during the
lifecycle of the environment. -/
inductive PyErr : Type where
  | keyError
  | valueError
  | notImplementedError
  | attributeError
  | duplicateNameError
  | compileError
  | typeError
  | zeroDivisionError
  deriving DecidableEq

/-- The `'flat'` entry of `_default_terrain_config` (source lines 38-43). -/
def _terrain_flat_defaults : Dict PyVal :=
  [("size", .tup [.num 50000, .num 50000]),
   ("friction", .tup [.num 1, .num 0.005, .num 0.0001]),
   ("fly_pos", .tup [.num 0, .num 0, .num 300]),
   ("fly_orient", .tup [.num 0, .num 1, .num 0, .num 0.1])]

/-- The `'gapped'` entry of `_default_terrain_config` (source lines 44-53). -/
def _terrain_gapped_defaults : Dict PyVal :=
  [("x_range", .tup [.num (-10000), .num 10000]),
   ("y_range", .tup [.num (-10000), .num 10000]),
   ("friction", .tup [.num 1, .num 0.005, .num 0.0001]),
   ("gap_width", .num 200),
   ("block_width", .num 1000),
   ("gap_depth", .num 2000),
   ("fly_pos", .tup [.num 0, .num 0, .num 600]),
   ("fly_orient", .tup [.num 0, .num 1, .num 0, .num 0.1])]

/-- The `'blocks'` entry of `_default_terrain_config` (source lines 54-63). -/
def _terrain_blocks_defaults : Dict PyVal :=
  [("x_range", .tup [.num (-10000), .num 10000]),
   ("y_range", .tup [.num (-10000), .num 10000]),
   ("friction", .tup [.num 1, .num 0.005, .num 0.0001]),
   ("block_size", .num 1000),
   ("height_range", .tup [.num 300, .num 300]),
   ("rand_seed", .num 0),
   ("fly_pos", .tup [.num 0, .num 0, .num 600]),
   ("fly_orient", .tup [.num 0, .num 1, .num 0, .num 0.1])]

/-- The `'ball'` entry of `_default_terrain_config` (source lines 64-68),
whose values contain the literal `...`. -/
def _terrain_ball_defaults : Dict PyVal :=
  [("radius", .ellipsis),
   ("fly_pos", .tup [.num 0, .num 0, .ellipsis]),
   ("fly_orient", .tup [.num 0, .num 1, .num 0, .ellipsis])]

/-- Module-level `_default_terrain_config` (source lines 37-69). -/
def _default_terrain_config : Dict (Dict PyVal) :=
  [("flat", _terrain_flat_defaults),
   ("gapped", _terrain_gapped_defaults),
   ("blocks", _terrain_blocks_defaults),
   ("ball", _terrain_ball_defaults)]

/-- Module-level `_default_physics_config` (source lines 70-74). -/
def _default_physics_config : Dict PyVal :=
  [("joint_stiffness", .num 2500),
   ("friction", .tup [.num 1, .num 0.005, .num 0.0001]),
   ("gravity", .tup [.num 0, .num 0, .num (-981000)])]

/-- The `'saved'` entry of the module-level `_default_render_config`
(source line 76). -/
def _render_saved_defaults : Dict PyVal :=
  [("window_size", .tup [.num 640, .num 480]),
   ("playspeed", .num 1),
   ("fps", .num 60)]

/-- Module-level `_default_render_config` (source lines 75-78). -/
def _default_render_config : Dict (Dict PyVal) :=
  [("saved", _render_saved_defaults), ("headless", [])]

/-- `_metadata['render_modes']` (source line 134). -/
def _metadata_render_modes : List String := ["headless", "viewer", "saved"]

/-- `_metadata['terrain']` (source line 135). -/
def _metadata_terrain : List String := ["flat", "gapped", "blocks", "ball"]

/-- `_metadata['control']` (source line 136). -/
def _metadata_control : List String := ["position", "velocity", "torque"]

/-- `_metadata['init_pose']` (source line 137). -/
def _metadata_init_pose : List String := ["default", "stretch"]

/-- An actuator element of the loaded MJCF model: its name attribute and the
joint it drives. -/
structure Actuator where
  name : String
  joint : String
  deriving DecidableEq

/-- The parts of the loaded MJCF model that the shim's logic inspects:
the named actuators and the named joints. -/
structure MjModel where
  actuators : List Actuator
  joints : List String

/-- The naming convention `f'actuator_{control}_{joint}'` (source line 238). -/
def actuatorName (control joint : String) : String :=
  "actuator_" ++ control ++ "_" ++ joint

/-- `mjcf` `model.find('actuator', name)`: returns the element, or `none`
when no actuator of that name exists (dm_control returns `None`). -/
def findActuator (m : MjModel) (name : String) : Option Actuator :=
  m.actuators.find? (fun a => a.name = name)

/-- Source lines 237-240: one lookup per entry of the actuated-DoF list. -/
def resolveActuators (m : MjModel) (control : String) (joints : List String) :
    List (Option Actuator) :=
  joints.map (fun j => findActuator m (actuatorName control j))

/-- A joint sensor added by the constructor: `jointpos`/`jointvel` reference a
joint, `actuatorfrc` references an actuator. -/
inductive Sensor : Type where
  | jointpos (name joint : String)
  | jointvel (name joint : String)
  | actuatorfrc (name actuator : String)
  deriving DecidableEq

/-- The five sensors added for one actuated joint (source lines 245-259):
position, velocity, and the three actuator-force sensors, the last
referencing the `torque` actuator. -/
def sensorsOf (j : String) : List Sensor :=
  [.jointpos ("jointpos_" ++ j) j,
   .jointvel ("jointvel_" ++ j) j,
   .actuatorfrc ("actuatorfrc_position_" ++ j) ("actuator_position_" ++ j),
   .actuatorfrc ("actuatorfrc_velocity_" ++ j) ("actuator_velocity_" ++ j),
   .actuatorfrc ("actuatorfrc_motor_" ++ j) ("actuator_torque_" ++ j)]

/-- `self.joint_sensors`: the per-joint sensor blocks concatenated in
actuated-DoF list order (the `extend` loop of source lines 243-259). -/
def jointSensors : List String → List Sensor
  | [] => []
  | j :: t => sensorsOf j ++ jointSensors t

/-- A body sensor on the thorax (source lines 260-269). -/
inductive BodySensor : Type where
  | framepos (name obj : String)
  | framelinvel (name obj : String)
  | framequat (name obj : String)
  | frameangvel (name obj : String)
  deriving DecidableEq

/-- `self.body_sensors` (source lines 260-269). -/
def bodySensorsInit : List BodySensor :=
  [.framepos "thorax_pos" "Thorax",
   .framelinvel "thorax_linvel" "Thorax",
   .framequat "thorax_quat" "Thorax",
   .frameangvel "thorax_angvel" "Thorax"]

/-- Turn a list of optional values into an optional list; `none` as soon as
one element is missing.  Used to model that every downstream attribute access
on a `None` actuator raises `AttributeError`. -/
def sequenceO {α : Type} : List (Option α) → Option (List α)
  | [] => some []
  | none :: _ => none
  | some a :: t => (sequenceO t).map (fun l => a :: l)

/-- Duplicate detection for the actuated-DoF list: adding two sensors with the
same name (which happens exactly when a joint is listed twice) makes
dm_control raise a duplicate-name error at `sensor.add` time. -/
def noDupB : List String → Bool
  | [] => true
  | x :: t => (!t.contains x) && noDupB t

/-- The MuJoCo compile step (`mjcf.Physics.from_mjcf_model`, source line 311)
resolves the string references held by the added sensors: each actuated joint
must exist, and the three conventionally named actuator-force targets of
source lines 250-258 must exist.  A dangling reference makes the compiler
raise. -/
def sensorRefsOk (m : MjModel) (joints : List String) : Bool :=
  joints.all (fun j =>
    m.joints.contains j
    && m.actuators.any (fun a => a.name = actuatorName "position" j)
    && m.actuators.any (fun a => a.name = actuatorName "velocity" j)
    && m.actuators.any (fun a => a.name = actuatorName "torque" j))

/-- A rendered image, as returned by the external rasterizer. -/
abbrev Frame := List ℚ

/-- The external collaborators consulted during construction: the loaded MJCF
model asset, the pose YAML files (variant name to per-joint angles in
degrees), numpy's degree-to-radian conversion, and the engine's default
joint angles after `physics.reset()`. -/
structure ExternalWorld where
  model : MjModel
  poseData : String → Dict ℚ
  deg2rad : ℚ → ℚ
  defaultQpos : String → ℚ

/-- The constructor arguments of `NeuroMechFlyMuJoCo.__init__`
(source lines 140-151), with the source's defaults where they are data. -/
structure InitArgs where
  render_mode : String := "saved"
  render_config : Dict PyVal := []
  actuated_joints : List String
  timestep : ℚ := 0.0001
  output_dir : Option String := none
  terrain : String := "flat"
  terrain_config : Dict PyVal := []
  physics_config : Dict PyVal := []
  control : String := "position"
  init_pose : String := "default"

/-- The state of a constructed environment: the attributes of the Python
object that the lifecycle methods read or write. -/
structure EnvState where
  render_mode : String
  render_config : Dict PyVal
  actuated_joints : List String
  timestep : ℚ
  output_dir : Option String
  terrain : String
  terrain_config : Dict PyVal
  physics_config : Dict PyVal
  control : String
  init_pose : Dict ℚ
  actuators : List Actuator
  joint_sensors : List Sensor
  body_sensors : List BodySensor
  qpos : String → ℚ
  defaultQpos : String → ℚ
  curr_time : ℚ
  eff_render_interval : ℚ
  last_render_time : Option ℚ
  frames : List Frame
  ctrl : List ℚ

/-- Pointwise update of the joint-angle state (one `named.data.qpos[...]`
assignment, source lines 345-347). -/
def writeQpos (q : String → ℚ) (j : String) (v : ℚ) : String → ℚ :=
  fun x => if x = j then v else q x

/-- `_set_init_pose` (source lines 339-347): for each actuator in order, if
its joint is in the actuated-DoF list and in the pose mapping, write the pose
angle into the joint state; otherwise leave the joint untouched. -/
def setInitPoseQpos (q0 : String → ℚ) (actuators : List Actuator)
    (actuated : List String) (pose : Dict ℚ) : String → ℚ :=
  actuators.foldl
    (fun q act =>
      if actuated.contains act.joint && (lookupD pose act.joint).isSome then
        writeQpos q act.joint ((lookupD pose act.joint).getD 0)
      else q)
    q0

/-- Source lines 227-229: load the pose file for the chosen variant and
convert each angle from degrees to radians. -/
def poseLoaded (w : ExternalWorld) (a : InitArgs) : Dict ℚ :=
  (w.poseData a.init_pose).map (fun kv => (kv.1, w.deg2rad kv.2))

/-- Source lines 230-231: restrict the loaded pose to joints present in the
actuated-DoF list. -/
def poseFiltered (w : ExternalWorld) (a : InitArgs) : Dict ℚ :=
  (poseLoaded w a).filter (fun kv => a.actuated_joints.contains kv.1)

/-- Source lines 314-316: the effective render interval
`playspeed / fps`, computed only when the render mode is not `'headless'`.
A non-numeric override raises a type error; `fps = 0` raises a
zero-division error. -/
def effInterval (mode : String) (rc : Dict PyVal) : Except PyErr ℚ :=
  if mode = "headless" then .ok 0
  else
    match lookupD rc "playspeed", lookupD rc "fps" with
    | some (.num p), some (.num f) =>
        if f = 0 then .error .zeroDivisionError else .ok (p / f)
    | _, _ => .error .typeError

/-- The environment state produced when every construction step succeeds
(the field assignments of `__init__`). -/
def buildState (w : ExternalWorld) (a : InitArgs) (rdef tdef : Dict PyVal)
    (interval : ℚ) (acts : List Actuator) : EnvState :=
  { render_mode := a.render_mode
    render_config := updateD rdef a.render_config
    actuated_joints := a.actuated_joints
    timestep := a.timestep
    output_dir := a.output_dir
    terrain := a.terrain
    terrain_config := updateD tdef a.terrain_config
    physics_config := updateD _default_physics_config a.physics_config
    control := a.control
    init_pose := poseFiltered w a
    actuators := acts
    joint_sensors := jointSensors a.actuated_joints
    body_sensors := bodySensorsInit
    qpos := setInitPoseQpos w.defaultQpos acts a.actuated_joints (poseFiltered w a)
    defaultQpos := w.defaultQpos
    curr_time := 0
    eff_render_interval := interval
    last_render_time := none
    frames := []
    ctrl := List.replicate a.actuated_joints.length 0 }

/-- `NeuroMechFlyMuJoCo.__init__` (source lines 140-336), with the failure
points in source order: unknown render mode (`KeyError`, line 190), unknown
terrain (`KeyError`, line 198), unknown init pose (`ValueError`, line 226),
duplicate sensor names (lines 243-259), `ball` terrain
(`NotImplementedError`, line 308), dangling sensor references at physics
compile (line 311), non-numeric playspeed/fps (lines 314-316), a missing
joint in the stiffness loop (`KeyError`, lines 325-328), and an unresolved
(`None`) actuator whose attributes `_set_compliant_Tarsus` reads
(`AttributeError`, lines 334, 357-363). -/
def nmfInit (w : ExternalWorld) (a : InitArgs) : Except PyErr EnvState :=
  match lookupD _default_render_config a.render_mode with
  | none => .error .keyError
  | some rdef =>
    match lookupD _default_terrain_config a.terrain with
    | none => .error .keyError
    | some tdef =>
      if _metadata_init_pose.contains a.init_pose then
        if noDupB a.actuated_joints then
          if a.terrain = "ball" then .error .notImplementedError
          else if sensorRefsOk w.model a.actuated_joints then
            match effInterval a.render_mode (updateD rdef a.render_config) with
            | .error e => .error e
            | .ok interval =>
              if a.actuated_joints.all (fun j => w.model.joints.contains j) then
                match sequenceO (resolveActuators w.model a.control a.actuated_joints) with
                | none => .error .attributeError
                | some acts => .ok (buildState w a rdef tdef interval acts)
              else .error .keyError
          else .error .compileError
        else .error .duplicateNameError
      else .error .valueError

/-- The observation returned by `reset()` and `step()`: the `'joints'` and
`'fly'` matrices, each as a list of rows. -/
structure Obs where
  joints : List (List ℚ)
  fly : List (List ℚ)

/-- The external collaborators consulted at runtime: scalar sensor readout,
vector body-sensor readout, scipy's quaternion-to-Euler conversion, the
physics stepper, and the rasterizer (width/height to image). -/
structure Ext where
  read : Sensor → ℚ
  readBody : BodySensor → List ℚ
  quatToEuler : List ℚ → List ℚ
  physStep : (String → ℚ) → String → ℚ
  rast : ℚ × ℚ → Frame

/-- `ang_pos[0] *= -1` (source line 457). -/
def negHead : List ℚ → List ℚ
  | [] => []
  | x :: t => (-x) :: t

/-- Fallback element for positional indexing into `self.body_sensors`. -/
def defaultBodySensor : BodySensor := .framepos "thorax_pos" "Thorax"

/-- `_get_observation` (source lines 439-464): the flattened sensordata of
the joint sensors is read back five entries per DoF (position, velocity,
three actuator forces); the torque row is the sum of the three force
readings scaled by `1e-9`; the fly matrix stacks the four body-sensor
readings, with the quaternion converted to Euler angles and the first
component negated. -/
def getObservation (ext : Ext) (s : EnvState) : Obs :=
  let sd := s.joint_sensors.map ext.read
  let n := s.actuated_joints.length
  let row0 := (List.range n).map (fun i => sd.getD (5 * i) 0)
  let row1 := (List.range n).map (fun i => sd.getD (5 * i + 1) 0)
  let row2 := (List.range n).map (fun i =>
    (sd.getD (5 * i + 2) 0 + sd.getD (5 * i + 3) 0 + sd.getD (5 * i + 4) 0)
      * (1 / 1000000000))
  let cart_pos := ext.readBody (s.body_sensors.getD 0 defaultBodySensor)
  let cart_vel := ext.readBody (s.body_sensors.getD 1 defaultBodySensor)
  let quat := ext.readBody (s.body_sensors.getD 2 defaultBodySensor)
  let ang_pos := negHead (ext.quatToEuler quat)
  let ang_vel := ext.readBody (s.body_sensors.getD 3 defaultBodySensor)
  { joints := [row0, row1, row2]
    fly := [cart_pos, cart_vel, ang_pos, ang_vel] }

/-- `_get_info` (source lines 467-468): the empty mapping. -/
def getInfo : Dict PyVal := []

/-- `reset` (source lines 375-393): restore the engine joint state to its
defaults, zero the clock, re-apply the filtered initial pose, empty the
frame buffer, reset the render-timing gate, and return the observation and
info mapping. -/
def reset (ext : Ext) (s : EnvState) : EnvState × Obs × Dict PyVal :=
  let s1 := { s with
    qpos := setInitPoseQpos s.defaultQpos s.actuators s.actuated_joints s.init_pose
    curr_time := 0
    frames := []
    last_render_time := none }
  (s1, getObservation ext s1, getInfo)

/-- The state as updated by one `step` call: control targets overwritten
with the action vector, engine advanced one timestep, clock advanced by the
configured timestep. -/
def stepState (ext : Ext) (action : List ℚ) (s : EnvState) : EnvState :=
  { s with
    ctrl := action
    qpos := ext.physStep s.qpos
    curr_time := s.curr_time + s.timestep }

/-- `step` (source lines 396-419): write the action vector as the control
targets of the bound actuator list (numpy raises a `ValueError` on a length
mismatch), advance the engine one timestep, advance the clock by the
configured timestep, and return the observation and info mapping. -/
def step (ext : Ext) (action : List ℚ) (s : EnvState) :
    Except PyErr (EnvState × Obs × Dict PyVal) :=
  if action.length = s.actuators.length then
    .ok (stepState ext action s, getObservation ext (stepState ext action s),
         getInfo)
  else .error .valueError

/-- The timing gate of `render` (source line 428):
`curr_time < last_render_time + eff_render_interval`, where the marker is
initialized to `-inf` (modelled as `none`, so the comparison is false and
the first call is never gated). -/
def ltGate (ct : ℚ) (last : Option ℚ) (interval : ℚ) : Bool :=
  match last with
  | none => false
  | some t => decide (ct < t + interval)

/-- `render` (source lines 422-436): no-op in headless mode; early return
while the timing gate holds; in `'saved'` mode rasterize at the configured
window size, append a copy of the frame, and update the marker; any other
mode raises `NotImplementedError`. -/
def render (ext : Ext) (s : EnvState) : Except PyErr EnvState :=
  if s.render_mode = "headless" then .ok s
  else if ltGate s.curr_time s.last_render_time s.eff_render_interval then .ok s
  else if s.render_mode = "saved" then
    match lookupD s.render_config "window_size" with
    | some (.tup [.num w, .num h]) =>
        .ok { s with frames := s.frames ++ [ext.rast (w, h)]
                     last_render_time := some s.curr_time }
    | _ => .error .typeError
  else .error .notImplementedError

/-- What `save_video` (source lines 470-488) does besides file output: a
non-fatal warning when the render mode is not `'saved'`, and the frames it
writes out.  The environment state is not modified. -/
structure SaveResult where
  warned : Bool
  written : List Frame

/-- `save_video` (source lines 470-488). -/
def save_video (s : EnvState) : EnvState × SaveResult :=
  (s, { warned := decide (s.render_mode ≠ "saved"), written := s.frames })

/-- `close` (source lines 491-494): save the video under the output
directory when in `'saved'` mode and an output directory was configured. -/
def close (s : EnvState) : EnvState × Option SaveResult :=
  if s.render_mode = "saved" then
    match s.output_dir with
    | some _ =>
        let p := save_video s
        (p.1, some p.2)
    | none => (s, none)
  else (s, none)

/-- A run of consecutive `step` calls (per-call runtime collaborators and
action vectors), stopping at the first raised exception. -/
def runSteps : List (Ext × List ℚ) → EnvState → Except PyErr EnvState
  | [], s => .ok s
  | (e, act) :: rest, s =>
    match step e act s with
    | .ok r => runSteps rest r.1
    | .error err => .error err

/-- A heap of Python dictionary objects, to model reference semantics
(`copy.deepcopy` versus aliasing) in the constructor's configuration
assembly. -/
structure PyHeap where
  cells : List (Dict PyVal)

/-- Read the dictionary stored at an address. -/
def getCell (h : PyHeap) (i : ℕ) : Dict PyVal := h.cells.getD i []

/-- `copy.deepcopy(d)`: allocate a fresh cell holding a structural copy of
the value, returning the new heap and the fresh address. -/
def deepcopyAlloc (h : PyHeap) (d : Dict PyVal) : PyHeap × ℕ :=
  ({ cells := h.cells ++ [d] }, h.cells.length)

/-- In-place `dict.update` on the dictionary stored at address `i`. -/
def dictUpdateAt (h : PyHeap) (i : ℕ) (u : Dict PyVal) : PyHeap :=
  { cells := h.cells.set i (updateD (getCell h i) u) }

/-- One configuration bundle of `__init__` (source lines 190-191, 198-199,
200-201) under reference semantics:
`self.cfg = copy.deepcopy(defaults); self.cfg.update(user)`, where
`defaults` is the module-level dictionary stored at `defaultIdx` and `user`
the caller's dictionary stored at `userIdx`. -/
def initBundleConfig (h : PyHeap) (defaultIdx userIdx : ℕ) : PyHeap × ℕ :=
  let p := deepcopyAlloc h (getCell h defaultIdx)
  (dictUpdateAt p.1 p.2 (getCell p.1 userIdx), p.2)

/-- A placeholder state (used only to name the result of a successful
construction via `Except.toOption ... |>.getD`). -/
def dummyState : EnvState :=
  { render_mode := "", render_config := [], actuated_joints := [], timestep := 0,
    output_dir := none, terrain := "", terrain_config := [], physics_config := [],
    control := "", init_pose := [], actuators := [], joint_sensors := [],
    body_sensors := [], qpos := fun _ => 0, defaultQpos := fun _ => 0,
    curr_time := 0, eff_render_interval := 0, last_render_time := none,
    frames := [], ctrl := [] }

/-- A small conventionally named model with two joints, standing in for the
groundwalking asset in concrete instantiations. -/
def toyModel : MjModel :=
  { actuators :=
      [⟨"actuator_position_jA", "jA"⟩, ⟨"actuator_velocity_jA", "jA"⟩,
       ⟨"actuator_torque_jA", "jA"⟩, ⟨"actuator_position_jB", "jB"⟩,
       ⟨"actuator_velocity_jB", "jB"⟩, ⟨"actuator_torque_jB", "jB"⟩],
    joints := ["jA", "jB"] }

/-- A concrete external world over `toyModel`; the default pose file has an
angle only for joint `jA`. -/
def toyWorld : ExternalWorld :=
  { model := toyModel
    poseData := fun v => if v = "default" then [("jA", 30)] else []
    deg2rad := fun q => q * 31415926535897932 / (180 * 10000000000000000)
    defaultQpos := fun _ => 0 }

/-- Standard, fully valid constructor arguments over the two toy joints. -/
def stdArgs : InitArgs := { actuated_joints := ["jA", "jB"] }

/-- The state built by a successful standard construction. -/
def stdState : EnvState := ((nmfInit toyWorld stdArgs).toOption).getD dummyState

/-- Did a construction attempt succeed? -/
def initSucceeds (r : Except PyErr EnvState) : Bool :=
  match r with
  | .ok _ => true
  | .error _ => false

/-- The merged render configuration of a successful construction, probed at
one key. -/
def renderCfgOf (r : Except PyErr EnvState) (k : String) : Option PyVal :=
  match r with
  | .ok s => lookupD s.render_config k
  | .error _ => none

/-- A concrete runtime world where every scalar sensor reads `0` and every
body sensor reads a 3-vector. -/
def toyExt : Ext :=
  { read := fun _ => 0
    readBody := fun _ => [0, 0, 0]
    quatToEuler := fun _ => [0, 0, 0]
    physStep := fun q => q
    rast := fun _ => [1] }

/-- Constructor arguments carrying an option name (`"bogus"`) that is not in
the default set of the chosen render variant. -/
def c3Args : InitArgs := { stdArgs with render_config := [("bogus", .num 7)] }

/-- The state built by constructing with the unknown render option. -/
def c3State : EnvState := ((nmfInit toyWorld c3Args).toOption).getD dummyState

/-- A fresh environment state in the (documented, but unconstructible)
`'viewer'` render mode. -/
def viewerState : EnvState := { dummyState with render_mode := "viewer" }

/-- Three consecutive zero-action step calls over the toy runtime world. -/
def c4Steps : List (Ext × List ℚ) :=
  [(toyExt, [0, 0]), (toyExt, [0, 0]), (toyExt, [0, 0])]

/-- The state after resetting the standard environment and running the three
step calls. -/
def c4RunState : EnvState :=
  ((runSteps c4Steps ((reset toyExt stdState).1)).toOption).getD dummyState

/-- An empty observation (used only as fallback when naming results). -/
def dummyObs : Obs := { joints := [], fly := [] }

/-- The result of one concrete step call with action vector `[5, 6]`. -/
def c6Step : EnvState × Obs × Dict PyVal :=
  ((step toyExt [5, 6] stdState).toOption).getD (dummyState, dummyObs, [])

/-- A recording-mode state holding one buffered frame, with an output
directory configured. -/
def c8State : EnvState :=
  { dummyState with
    render_mode := "saved"
    render_config := _render_saved_defaults
    output_dir := some "outputs"
    frames := [[1]] }

/-- The state after one (appending) render call on `c8State`. -/
def c8RenderState : EnvState :=
  ((render toyExt c8State).toOption).getD dummyState

/-- A fresh recording-mode state with the default render configuration. -/
def c9State : EnvState :=
  { dummyState with
    render_mode := "saved"
    render_config := _render_saved_defaults
    eff_render_interval := 1 / 60 }

/-- A fresh headless-mode state. -/
def headlessState : EnvState := { dummyState with render_mode := "headless" }

/-- A two-cell heap: the module-level `'saved'` render defaults at address 0
and a caller's override dictionary at address 1. -/
def c10Heap : PyHeap :=
  { cells := [_render_saved_defaults, [("playspeed", .num 2)]] }

/-! ### Dictionary lemmas -/

theorem lookupD_setKey_self {α : Type} (d : Dict α) (k : String) (v : α) :
    lookupD (setKey d k v) k = some v := by
  induction d with
  | nil => simp [setKey, lookupD]
  | cons kv t ih =>
      obtain ⟨k2, v2⟩ := kv
      by_cases hk : k2 = k
      · simp [setKey, hk, lookupD]
      · simp [setKey, hk, lookupD, ih]

theorem lookupD_setKey_ne {α : Type} (d : Dict α) (k k' : String) (v : α)
    (hne : k' ≠ k) : lookupD (setKey d k v) k' = lookupD d k' := by
  have hne' : k ≠ k' := Ne.symm hne
  induction d with
  | nil => simp [setKey, lookupD, hne']
  | cons kv t ih =>
      obtain ⟨k2, v2⟩ := kv
      by_cases hk : k2 = k
      · subst hk
        simp [setKey, lookupD, hne']
      · simp only [setKey, if_neg hk, lookupD]
        by_cases hk' : k2 = k'
        · simp [hk']
        · simp [hk', ih]

theorem lookupD_updateD_not_mem {α : Type} (u : Dict α) :
    ∀ (d : Dict α) (k : String), k ∉ keysD u →
      lookupD (updateD d u) k = lookupD d k := by
  induction u with
  | nil => intro d k _; rfl
  | cons kv t ih =>
      intro d k hk
      obtain ⟨k1, v1⟩ := kv
      have hk1 : k ≠ k1 := by
        intro h; exact hk (by simp [keysD, h])
      have hkt : k ∉ keysD t := by
        intro h; exact hk (by simp [keysD] at h ⊢; exact Or.inr h)
      show lookupD (updateD (setKey d k1 v1) t) k = lookupD d k
      rw [ih (setKey d k1 v1) k hkt, lookupD_setKey_ne d k1 k v1 hk1]

theorem lookupD_updateD_of_nodup {α : Type} (u : Dict α) :
    ∀ (d : Dict α) (k : String) (v : α), (keysD u).Nodup →
      lookupD u k = some v → lookupD (updateD d u) k = some v := by
  induction u with
  | nil => intro d k v _ h; simp [lookupD] at h
  | cons kv t ih =>
      intro d k v hnd hv
      obtain ⟨k1, v1⟩ := kv
      have hnd' : (keysD t).Nodup ∧ k1 ∉ keysD t := by
        simp [keysD] at hnd ⊢
        exact ⟨hnd.2, fun x hx => hnd.1 x hx⟩
      show lookupD (updateD (setKey d k1 v1) t) k = some v
      by_cases hk : k1 = k
      · subst hk
        have hv1 : v1 = v := by simpa [lookupD] using hv
        rw [lookupD_updateD_not_mem t (setKey d k1 v1) k1 hnd'.2,
            lookupD_setKey_self, hv1]
      · simp only [lookupD, if_neg hk] at hv
        exact ih (setKey d k1 v1) k v hnd'.1 hv

theorem lookupD_filter_key {α : Type} (l : Dict α) (f : String → Bool)
    (k : String) (hf : f k = true) :
    lookupD (l.filter (fun kv => f kv.1)) k = lookupD l k := by
  induction l with
  | nil => rfl
  | cons kv t ih =>
      obtain ⟨k2, v2⟩ := kv
      by_cases hk : k2 = k
      · subst hk
        simp [List.filter, hf, lookupD]
      · by_cases hf2 : f k2 = true
        · simp [List.filter, hf2, lookupD, hk, ih]
        · simp only [List.filter, Bool.not_eq_true] at hf2
          simp [List.filter, hf2, lookupD, hk, ih]

/-! ### `sequenceO` lemmas -/

theorem sequenceO_length {α : Type} :
    ∀ (l : List (Option α)) (acts : List α),
      sequenceO l = some acts → acts.length = l.length := by
  intro l
  induction l with
  | nil =>
      intro acts h
      simp only [sequenceO, Option.some.injEq] at h
      simp [← h]
  | cons o t ih =>
      intro acts h
      cases o with
      | none => simp [sequenceO] at h
      | some a =>
          simp only [sequenceO] at h
          rcases Option.map_eq_some'.mp h with ⟨l2, hl2, hacts⟩
          subst hacts
          simp [ih l2 hl2]

theorem sequenceO_get {α : Type} :
    ∀ (l : List (Option α)) (acts : List α), sequenceO l = some acts →
      ∀ (i : ℕ) (h1 : i < l.length) (h2 : i < acts.length),
        l.get ⟨i, h1⟩ = some (acts.get ⟨i, h2⟩) := by
  intro l
  induction l with
  | nil => intro acts _ i h1; simp at h1
  | cons o t ih =>
      intro acts h i h1 h2
      cases o with
      | none => simp [sequenceO] at h
      | some a =>
          simp only [sequenceO] at h
          rcases Option.map_eq_some'.mp h with ⟨l2, hl2, hacts⟩
          subst hacts
          match i with
          | 0 => rfl
          | i + 1 =>
              exact ih l2 hl2 i (by simpa using h1) (by simpa using h2)

theorem sequenceO_eq_none {α : Type} :
    ∀ (l : List (Option α)), none ∈ l → sequenceO l = none := by
  intro l
  induction l with
  | nil => intro h; simp at h
  | cons o t ih =>
      intro h
      cases o with
      | none => rfl
      | some a =>
          have ht : none ∈ t := by
            rcases List.mem_cons.mp h with h0 | h0
            · exact absurd h0.symm (by simp)
            · exact h0
          simp [sequenceO, ih ht]

/-! ### Joint-sensor indexing lemmas -/

theorem jointSensors_length (js : List String) :
    (jointSensors js).length = 5 * js.length := by
  induction js with
  | nil => rfl
  | cons j t ih =>
      simp [jointSensors, sensorsOf, ih]
      ring

theorem jointSensors_map_getD (read : Sensor → ℚ) :
    ∀ (js : List String) (i : ℕ) (h : i < js.length) (k : ℕ), k < 5 →
      ((jointSensors js).map read).getD (5 * i + k) 0 =
        ((sensorsOf (js.get ⟨i, h⟩)).map read).getD k 0 := by
  intro js
  induction js with
  | nil => intro i h; simp at h
  | cons j t ih =>
      intro i h k hk
      match i with
      | 0 =>
          show ((sensorsOf j ++ jointSensors t).map read).getD (5 * 0 + k) 0 = _
          rw [List.map_append]
          rw [List.getD_append _ _ _ _ (by simp [sensorsOf]; omega)]
          have h0 : 5 * 0 + k = k := by omega
          rw [h0]
          rfl
      | i + 1 =>
          show ((sensorsOf j ++ jointSensors t).map read).getD (5 * (i + 1) + k) 0 = _
          rw [List.map_append]
          have hlen : ((sensorsOf j).map read).length = 5 := by simp [sensorsOf]
          rw [List.getD_append_right _ _ _ _ (by omega)]
          have harith : 5 * (i + 1) + k - ((sensorsOf j).map read).length
              = 5 * i + k := by rw [hlen]; ring_nf; omega
          rw [harith]
          exact ih i (by simpa using h) k hk

theorem range_map_getD (f : ℕ → ℚ) (n i : ℕ) (h : i < n) :
    ((List.range n).map f).getD i 0 = f i := by
  rw [List.getD_eq_getElem _ _ (by simpa using h)]
  simp

/-! ### Initial-pose evaluation -/

theorem setInitPoseQpos_not_mem (actuated : List String) (pose : Dict ℚ)
    (j : String) :
    ∀ (acts : List Actuator) (q0 : String → ℚ),
      j ∉ acts.map Actuator.joint →
      setInitPoseQpos q0 acts actuated pose j = q0 j := by
  intro acts
  induction acts with
  | nil => intro q0 _; rfl
  | cons act t ih =>
      intro q0 hj
      have hja : j ≠ act.joint := by
        intro h; exact hj (by simp [h])
      have hjt : j ∉ t.map Actuator.joint := by
        intro h; exact hj (by simp [h])
      show setInitPoseQpos
        (if actuated.contains act.joint && (lookupD pose act.joint).isSome then
          writeQpos q0 act.joint ((lookupD pose act.joint).getD 0) else q0)
        t actuated pose j = q0 j
      rw [ih _ hjt]
      by_cases hc : (actuated.contains act.joint && (lookupD pose act.joint).isSome) = true
      · rw [if_pos hc]; simp [writeQpos, hja]
      · rw [if_neg hc]

theorem setInitPoseQpos_none (actuated : List String) (pose : Dict ℚ)
    (j : String) (hj : lookupD pose j = none) :
    ∀ (acts : List Actuator) (q0 : String → ℚ),
      setInitPoseQpos q0 acts actuated pose j = q0 j := by
  intro acts
  induction acts with
  | nil => intro q0; rfl
  | cons act t ih =>
      intro q0
      show setInitPoseQpos
        (if actuated.contains act.joint && (lookupD pose act.joint).isSome then
          writeQpos q0 act.joint ((lookupD pose act.joint).getD 0) else q0)
        t actuated pose j = q0 j
      rw [ih]
      by_cases hc : (actuated.contains act.joint && (lookupD pose act.joint).isSome) = true
      · rw [if_pos hc]
        have hja : j ≠ act.joint := by
          intro h
          subst h
          rw [hj] at hc
          simp at hc
        simp [writeQpos, hja]
      · rw [if_neg hc]

theorem setInitPoseQpos_some (actuated : List String) (pose : Dict ℚ)
    (j : String) (v : ℚ) (hmem : actuated.contains j = true)
    (hv : lookupD pose j = some v) :
    ∀ (acts : List Actuator) (q0 : String → ℚ),
      j ∈ acts.map Actuator.joint →
      setInitPoseQpos q0 acts actuated pose j = v := by
  intro acts
  induction acts with
  | nil => intro q0 h; simp at h
  | cons act t ih =>
      intro q0 hj
      show setInitPoseQpos
        (if actuated.contains act.joint && (lookupD pose act.joint).isSome then
          writeQpos q0 act.joint ((lookupD pose act.joint).getD 0) else q0)
        t actuated pose j = v
      by_cases hjt : j ∈ t.map Actuator.joint
      · exact ih _ hjt
      · have hja : j = act.joint := by
          have hsplit : j = act.joint ∨ ∃ a ∈ t, a.joint = j := by simpa using hj
          rcases hsplit with h | ⟨a, ha, haj⟩
          · exact h
          · exact absurd (List.mem_map.mpr ⟨a, ha, haj⟩) hjt
        have hv' : lookupD pose act.joint = some v := by rw [← hja]; exact hv
        have hm' : actuated.contains act.joint = true := by rw [← hja]; exact hmem
        have hc : (actuated.contains act.joint
            && (lookupD pose act.joint).isSome) = true := by
          rw [hm', hv']; rfl
        rw [setInitPoseQpos_not_mem actuated pose j t _ hjt, if_pos hc]
        simp [writeQpos, hja, hv']


/-! ### Characterization of successful construction -/

theorem nmfInit_ok_inv {w : ExternalWorld} {a : InitArgs} {s : EnvState}
    (h : nmfInit w a = .ok s) :
    ∃ (rdef tdef : Dict PyVal) (interval : ℚ) (acts : List Actuator),
      lookupD _default_render_config a.render_mode = some rdef ∧
      lookupD _default_terrain_config a.terrain = some tdef ∧
      _metadata_init_pose.contains a.init_pose = true ∧
      noDupB a.actuated_joints = true ∧
      a.terrain ≠ "ball" ∧
      sensorRefsOk w.model a.actuated_joints = true ∧
      effInterval a.render_mode (updateD rdef a.render_config) = .ok interval ∧
      a.actuated_joints.all (fun j => w.model.joints.contains j) = true ∧
      sequenceO (resolveActuators w.model a.control a.actuated_joints)
        = some acts ∧
      s = buildState w a rdef tdef interval acts := by
  unfold nmfInit at h
  split at h
  · simp at h
  next rdef hr =>
    split at h
    · simp at h
    next tdef ht =>
      split at h
      case isTrue hpose =>
        split at h
        case isTrue hnodup =>
          split at h
          case isTrue hball => simp at h
          case isFalse hball =>
            split at h
            case isTrue hrefs =>
              split at h
              · simp at h
              next interval hint =>
                split at h
                case isTrue hall =>
                  split at h
                  · simp at h
                  next acts hacts =>
                    have hs : buildState w a rdef tdef interval acts = s := by
                      injection h
                    exact ⟨rdef, tdef, interval, acts, hr, ht, hpose, hnodup,
                      hball, hrefs, hint, hall, hacts, hs.symm⟩
                case isFalse hall => simp at h
            case isFalse hrefs => simp at h
        case isFalse hnodup => simp at h
      case isFalse hpose => simp at h

theorem nmfInit_ok_build (w : ExternalWorld) (a : InitArgs)
    (rdef tdef : Dict PyVal) (interval : ℚ) (acts : List Actuator)
    (h1 : lookupD _default_render_config a.render_mode = some rdef)
    (h2 : lookupD _default_terrain_config a.terrain = some tdef)
    (h3 : _metadata_init_pose.contains a.init_pose = true)
    (h4 : noDupB a.actuated_joints = true)
    (h5 : a.terrain ≠ "ball")
    (h6 : sensorRefsOk w.model a.actuated_joints = true)
    (h7 : effInterval a.render_mode (updateD rdef a.render_config)
        = .ok interval)
    (h8 : a.actuated_joints.all (fun j => w.model.joints.contains j) = true)
    (h9 : sequenceO (resolveActuators w.model a.control a.actuated_joints)
        = some acts) :
    nmfInit w a = .ok (buildState w a rdef tdef interval acts) := by
  unfold nmfInit
  rw [h1, h2]
  have h3' : a.init_pose ∈ _metadata_init_pose := by simpa using h3
  have h8' : ∀ x ∈ a.actuated_joints, x ∈ w.model.joints := by simpa using h8
  simp [h3', h4, h5, h6, h7, h8', h9]
  exact h8'

/-! ### Step and run lemmas -/

theorem step_ok_elim {ext : Ext} {act : List ℚ} {s : EnvState}
    {r : EnvState × Obs × Dict PyVal} (h : step ext act s = .ok r) :
    act.length = s.actuators.length ∧
    r = (stepState ext act s, getObservation ext (stepState ext act s),
         getInfo) := by
  unfold step at h
  split at h
  next hlen =>
    refine ⟨hlen, ?_⟩
    injection h with hh
    exact hh.symm
  next hlen => simp at h

theorem runSteps_clock :
    ∀ (l : List (Ext × List ℚ)) (s sN : EnvState),
      runSteps l s = .ok sN →
      sN.curr_time = s.curr_time + (l.length : ℚ) * s.timestep ∧
      sN.timestep = s.timestep := by
  intro l
  induction l with
  | nil =>
      intro s sN h
      simp only [runSteps] at h
      injection h with hh
      subst hh
      simp
  | cons p rest ih =>
      intro s sN h
      obtain ⟨e, act⟩ := p
      simp only [runSteps] at h
      split at h
      next r hstep =>
        obtain ⟨hlen, hr⟩ := step_ok_elim hstep
        obtain ⟨h1, h2⟩ := ih r.1 sN h
        subst hr
        refine ⟨?_, by simpa [stepState] using h2⟩
        rw [h1]
        simp [stepState]
        ring
      next err herr => simp at h

/-! ### Observation lemmas -/

theorem negHead_length (l : List ℚ) : (negHead l).length = l.length := by
  cases l <;> simp [negHead]

theorem getObservation_row_entry (ext : Ext) (s2 : EnvState)
    (hw : s2.joint_sensors = jointSensors s2.actuated_joints)
    (i : ℕ) (hi : i < s2.actuated_joints.length) :
    (((getObservation ext s2).joints.getD 0 []).getD i 0 =
      ((sensorsOf (s2.actuated_joints.get ⟨i, hi⟩)).map ext.read).getD 0 0) ∧
    (((getObservation ext s2).joints.getD 1 []).getD i 0 =
      ((sensorsOf (s2.actuated_joints.get ⟨i, hi⟩)).map ext.read).getD 1 0) ∧
    (((getObservation ext s2).joints.getD 2 []).getD i 0 =
      (((sensorsOf (s2.actuated_joints.get ⟨i, hi⟩)).map ext.read).getD 2 0
       + ((sensorsOf (s2.actuated_joints.get ⟨i, hi⟩)).map ext.read).getD 3 0
       + ((sensorsOf (s2.actuated_joints.get ⟨i, hi⟩)).map ext.read).getD 4 0)
      * (1 / 1000000000)) := by
  refine ⟨?_, ?_, ?_⟩
  · show ((List.range s2.actuated_joints.length).map
      (fun i => (s2.joint_sensors.map ext.read).getD (5 * i) 0)).getD i 0 = _
    rw [range_map_getD _ _ i hi, hw]
    have h5 : 5 * i = 5 * i + 0 := by omega
    rw [h5, jointSensors_map_getD ext.read s2.actuated_joints i hi 0
      (by omega)]
  · show ((List.range s2.actuated_joints.length).map
      (fun i => (s2.joint_sensors.map ext.read).getD (5 * i + 1) 0)).getD i 0 = _
    rw [range_map_getD _ _ i hi, hw,
      jointSensors_map_getD ext.read s2.actuated_joints i hi 1 (by omega)]
  · show ((List.range s2.actuated_joints.length).map
      (fun i => ((s2.joint_sensors.map ext.read).getD (5 * i + 2) 0
        + (s2.joint_sensors.map ext.read).getD (5 * i + 3) 0
        + (s2.joint_sensors.map ext.read).getD (5 * i + 4) 0)
        * (1 / 1000000000))).getD i 0 = _
    rw [range_map_getD _ _ i hi, hw,
      jointSensors_map_getD ext.read s2.actuated_joints i hi 2 (by omega),
      jointSensors_map_getD ext.read s2.actuated_joints i hi 3 (by omega),
      jointSensors_map_getD ext.read s2.actuated_joints i hi 4 (by omega)]

theorem getObservation_shape (ext : Ext) (s2 : EnvState)
    (hb : s2.body_sensors = bodySensorsInit)
    (hp : (ext.readBody (.framepos "thorax_pos" "Thorax")).length = 3)
    (hv : (ext.readBody (.framelinvel "thorax_linvel" "Thorax")).length = 3)
    (hq : ∀ l, (ext.quatToEuler l).length = 3)
    (ha : (ext.readBody (.frameangvel "thorax_angvel" "Thorax")).length = 3) :
    (getObservation ext s2).joints.length = 3 ∧
    (∀ row ∈ (getObservation ext s2).joints,
      row.length = s2.actuated_joints.length) ∧
    (getObservation ext s2).fly.length = 4 ∧
    (∀ row ∈ (getObservation ext s2).fly, row.length = 3) := by
  refine ⟨rfl, ?_, rfl, ?_⟩
  · intro row hrow
    have hcases : row = (List.range s2.actuated_joints.length).map
        (fun i => (s2.joint_sensors.map ext.read).getD (5 * i) 0)
      ∨ row = (List.range s2.actuated_joints.length).map
        (fun i => (s2.joint_sensors.map ext.read).getD (5 * i + 1) 0)
      ∨ row = (List.range s2.actuated_joints.length).map
        (fun i => ((s2.joint_sensors.map ext.read).getD (5 * i + 2) 0
          + (s2.joint_sensors.map ext.read).getD (5 * i + 3) 0
          + (s2.joint_sensors.map ext.read).getD (5 * i + 4) 0)
          * (1 / 1000000000)) := by
      simpa [getObservation] using hrow
    rcases hcases with h1 | h1 | h1 <;> rw [h1] <;> simp
  · intro row hrow
    have hcases : row = ext.readBody (s2.body_sensors.getD 0 defaultBodySensor)
      ∨ row = ext.readBody (s2.body_sensors.getD 1 defaultBodySensor)
      ∨ row = negHead (ext.quatToEuler
          (ext.readBody (s2.body_sensors.getD 2 defaultBodySensor)))
      ∨ row = ext.readBody (s2.body_sensors.getD 3 defaultBodySensor) := by
      simpa [getObservation] using hrow
    rcases hcases with h1 | h1 | h1 | h1 <;> rw [h1, hb]
    · exact hp
    · exact hv
    · rw [negHead_length]
      exact hq _
    · exact ha

/-! ### Heap lemmas -/

theorem initBundleConfig_length (g : PyHeap) (dIdx uIdx : ℕ) :
    (initBundleConfig g dIdx uIdx).1.cells.length = g.cells.length + 1 := by
  simp [initBundleConfig, deepcopyAlloc, dictUpdateAt]

theorem initBundleConfig_frame (g : PyHeap) (dIdx uIdx j : ℕ)
    (hj : j < g.cells.length) :
    getCell (initBundleConfig g dIdx uIdx).1 j = getCell g j := by
  show getCell
    (dictUpdateAt { cells := g.cells ++ [getCell g dIdx] } g.cells.length
      (getCell { cells := g.cells ++ [getCell g dIdx] } uIdx)) j
    = getCell g j
  unfold dictUpdateAt getCell
  simp only []
  rw [List.getD_eq_getElem?_getD, List.getElem?_set_ne (by omega)]
  rw [← List.getD_eq_getElem?_getD, List.getD_append _ _ _ _ hj]

theorem initBundleConfig_merged (g : PyHeap) (dIdx uIdx : ℕ)
    (_hd : dIdx < g.cells.length) (hu : uIdx < g.cells.length) :
    getCell (initBundleConfig g dIdx uIdx).1 (initBundleConfig g dIdx uIdx).2
      = updateD (getCell g dIdx) (getCell g uIdx) := by
  show getCell
    (dictUpdateAt { cells := g.cells ++ [getCell g dIdx] } g.cells.length
      (getCell { cells := g.cells ++ [getCell g dIdx] } uIdx)) g.cells.length
    = _
  unfold dictUpdateAt getCell
  simp only []
  rw [List.getD_eq_getElem?_getD, List.getElem?_set_self (by simp)]
  simp only [Option.getD_some]
  have hA : (g.cells ++ [g.cells.getD dIdx []]).getD g.cells.length []
      = g.cells.getD dIdx [] := by
    rw [List.getD_eq_getElem?_getD, List.getElem?_append_right (by omega)]
    simp
  have hB : (g.cells ++ [g.cells.getD dIdx []]).getD uIdx []
      = g.cells.getD uIdx [] := by
    rw [List.getD_append _ _ _ _ hu]
  rw [hA, hB]

/-! ### Claim theorems -/

/-- C1: for every joint in the actuated-DoF list the constructor looks up the
actuator named by the convention `actuator_{control}_{joint}`; whenever any
such actuator is missing from the loaded model (in particular for an unknown
control-mode string against a conventionally named model), construction
raises an exception instead of returning an environment. -/
theorem C1_missing_actuator_construction_fails (w : ExternalWorld)
    (a : InitArgs)
    (hmiss : ∃ j ∈ a.actuated_joints,
      findActuator w.model (actuatorName a.control j) = none) :
    ∃ e, nmfInit w a = .error e := by
  cases hres : nmfInit w a with
  | error e => exact ⟨e, rfl⟩
  | ok s =>
      obtain ⟨rdef, tdef, interval, acts, _, _, _, _, _, _, _, _, hacts, _⟩ :=
        nmfInit_ok_inv hres
      obtain ⟨j, hj, hfind⟩ := hmiss
      have hnone : none ∈ resolveActuators w.model a.control a.actuated_joints := by
        simp only [resolveActuators, List.mem_map]
        exact ⟨j, hj, hfind⟩
      rw [sequenceO_eq_none _ hnone] at hacts
      simp at hacts

/-- C1 witness: with the unknown control mode `"pwm"`, the conventionally
named toy model has no actuator `actuator_pwm_jA`, and construction fails. -/
theorem C1_missing_actuator_construction_fails_witness :
    ∃ e, nmfInit toyWorld { stdArgs with control := "pwm" } = .error e :=
  C1_missing_actuator_construction_fails toyWorld
    { stdArgs with control := "pwm" } ⟨"jA", by decide, by rfl⟩

/-- C2: unknown terrain, init-pose, and render-mode strings all make the
constructor raise; the `'ball'` terrain raises the not-implemented failure
at construction; and `render()` in any mode other than `'saved'` or
`'headless'` raises the not-implemented failure at first use. -/
theorem C2_unknown_variant_fatal :
    (∀ (w : ExternalWorld) (a : InitArgs),
      a.render_mode ∉ _metadata_render_modes → ∃ e, nmfInit w a = .error e) ∧
    (∀ (w : ExternalWorld) (a : InitArgs),
      a.terrain ∉ _metadata_terrain → ∃ e, nmfInit w a = .error e) ∧
    (∀ (w : ExternalWorld) (a : InitArgs),
      a.init_pose ∉ _metadata_init_pose → ∃ e, nmfInit w a = .error e) ∧
    (∀ (w : ExternalWorld) (a : InitArgs), a.terrain = "ball" →
      a.render_mode ∈ ["saved", "headless"] →
      a.init_pose ∈ _metadata_init_pose → noDupB a.actuated_joints = true →
      nmfInit w a = .error .notImplementedError) ∧
    (∀ (ext : Ext) (s : EnvState), s.render_mode ∉ ["headless", "saved"] →
      s.last_render_time = none →
      render ext s = .error .notImplementedError) := by
  refine ⟨?_, ?_, ?_, ?_, ?_⟩
  · intro w a h
    simp only [_metadata_render_modes, List.mem_cons, List.not_mem_nil,
      or_false, not_or] at h
    obtain ⟨h1, h2, h3⟩ := h
    have hr : lookupD _default_render_config a.render_mode = none := by
      simp [lookupD, _default_render_config, Ne.symm h3, Ne.symm h1]
    exact ⟨.keyError, by simp [nmfInit, hr]⟩
  · intro w a h
    simp only [_metadata_terrain, List.mem_cons, List.not_mem_nil,
      or_false, not_or] at h
    obtain ⟨h1, h2, h3, h4⟩ := h
    have ht : lookupD _default_terrain_config a.terrain = none := by
      simp [lookupD, _default_terrain_config,
        Ne.symm h1, Ne.symm h2, Ne.symm h3, Ne.symm h4]
    cases hr : lookupD _default_render_config a.render_mode with
    | none => exact ⟨.keyError, by simp [nmfInit, hr]⟩
    | some rdef => exact ⟨.keyError, by simp [nmfInit, hr, ht]⟩
  · intro w a h
    have hc : _metadata_init_pose.contains a.init_pose = false := by
      simpa using h
    cases hr : lookupD _default_render_config a.render_mode with
    | none => exact ⟨.keyError, by simp [nmfInit, hr]⟩
    | some rdef =>
        cases ht : lookupD _default_terrain_config a.terrain with
        | none => exact ⟨.keyError, by simp [nmfInit, hr, ht]⟩
        | some tdef => exact ⟨.valueError, by simp [nmfInit, hr, ht, h]⟩
  · intro w a hball hmode hpose hnodup
    have hposeB : _metadata_init_pose.contains a.init_pose = true := by
      simpa using hpose
    have hterr : lookupD _default_terrain_config a.terrain
        = some _terrain_ball_defaults := by
      rw [hball]; rfl
    have hmode2 : a.render_mode = "saved" ∨ a.render_mode = "headless" := by
      simpa using hmode
    have hr : ∃ rdef, lookupD _default_render_config a.render_mode
        = some rdef := by
      rcases hmode2 with hm | hm <;> rw [hm]
      · exact ⟨_render_saved_defaults, rfl⟩
      · exact ⟨[], rfl⟩
    obtain ⟨rdef, hr⟩ := hr
    unfold nmfInit
    rw [hr, hterr]
    simp [hpose, hnodup, hball]
  · intro ext s hmode hlast
    have h1 : s.render_mode ≠ "headless" := by
      intro hc; exact hmode (by simp [hc])
    have h2 : s.render_mode ≠ "saved" := by
      intro hc; exact hmode (by simp [hc])
    unfold render
    rw [hlast]
    simp [ltGate, h1, h2]

/-- C2 witness: concrete instances of each conjunct — an unknown render mode,
an unknown terrain, an unknown pose, the ball terrain, and a first
`render()` call in `'viewer'` mode. -/
theorem C2_unknown_variant_fatal_witness :
    (∃ e, nmfInit toyWorld { stdArgs with render_mode := "window" }
        = .error e) ∧
    (∃ e, nmfInit toyWorld { stdArgs with terrain := "hills" } = .error e) ∧
    (∃ e, nmfInit toyWorld { stdArgs with init_pose := "sitting" }
        = .error e) ∧
    nmfInit toyWorld { stdArgs with terrain := "ball" }
        = .error .notImplementedError ∧
    render toyExt viewerState = .error .notImplementedError :=
  ⟨C2_unknown_variant_fatal.1 toyWorld _ (by decide),
   C2_unknown_variant_fatal.2.1 toyWorld _ (by decide),
   C2_unknown_variant_fatal.2.2.1 toyWorld _ (by decide),
   C2_unknown_variant_fatal.2.2.2.1 toyWorld _ rfl (by decide) (by decide)
     (by rfl),
   C2_unknown_variant_fatal.2.2.2.2 toyExt viewerState (by decide) rfl⟩

/-- C3 counterexample: the claim says a user-supplied option name outside the
variant's default set is a configuration error, but passing the unknown
render option `"bogus"` succeeds and the option is silently merged into the
configuration. -/
theorem C3_unknown_option_accepted :
    initSucceeds (nmfInit toyWorld c3Args) = true ∧
    renderCfgOf (nmfInit toyWorld c3Args) "bogus" = some (.num 7) :=
  ⟨rfl, rfl⟩

/-- C3 (amended): each configuration bundle is the variant default set
merged with the user overrides, user values taking precedence; option names
outside the default set are accepted silently rather than rejected. -/
theorem C3_amended_defaults_merged_with_overrides (w : ExternalWorld)
    (a : InitArgs) (s : EnvState) (rdef tdef : Dict PyVal)
    (h : nmfInit w a = .ok s)
    (hr : lookupD _default_render_config a.render_mode = some rdef)
    (ht : lookupD _default_terrain_config a.terrain = some tdef) :
    s.render_config = updateD rdef a.render_config ∧
    s.terrain_config = updateD tdef a.terrain_config ∧
    s.physics_config = updateD _default_physics_config a.physics_config ∧
    (∀ (k : String) (v : PyVal), (keysD a.render_config).Nodup →
      lookupD a.render_config k = some v →
      lookupD s.render_config k = some v) := by
  obtain ⟨rdef2, tdef2, interval, acts, hr2, ht2, _, _, _, _, _, _, _, hs⟩ :=
    nmfInit_ok_inv h
  have hrd : rdef2 = rdef := by
    rw [hr] at hr2
    injection hr2 with hx
    exact hx.symm
  have htd : tdef2 = tdef := by
    rw [ht] at ht2
    injection ht2 with hx
    exact hx.symm
  subst hrd htd hs
  refine ⟨rfl, rfl, rfl, ?_⟩
  intro k v hnd hv
  exact lookupD_updateD_of_nodup a.render_config _ k v hnd hv

/-- C3 amended witness: the construction with the unknown `"bogus"` render
option demonstrates the merge and the precedence of the user's value. -/
theorem C3_amended_defaults_merged_with_overrides_witness :
    c3State.render_config = updateD _render_saved_defaults c3Args.render_config ∧
    lookupD c3State.render_config "bogus" = some (.num 7) :=
  ⟨(C3_amended_defaults_merged_with_overrides toyWorld c3Args c3State
      _render_saved_defaults _terrain_flat_defaults rfl rfl rfl).1,
   (C3_amended_defaults_merged_with_overrides toyWorld c3Args c3State
      _render_saved_defaults _terrain_flat_defaults rfl rfl rfl).2.2.2
      "bogus" (.num 7) (by decide) rfl⟩

/-- C4: the simulation clock is zero immediately after construction and after
every `reset()`; each `step()` call increases it by exactly the configured
timestep; after N consecutive `step()` calls following a `reset()` the clock
equals N times the configured timestep (exactly, over ℚ). -/
theorem C4_simulation_clock (w : ExternalWorld) (a : InitArgs) (s : EnvState)
    (ext : Ext) (h : nmfInit w a = .ok s) :
    s.curr_time = 0 ∧
    ((reset ext s).1).curr_time = 0 ∧
    (∀ (e2 : Ext) (act : List ℚ) (t : EnvState)
      (r : EnvState × Obs × Dict PyVal),
      step e2 act t = .ok r → r.1.curr_time = t.curr_time + t.timestep) ∧
    (∀ (l : List (Ext × List ℚ)) (sN : EnvState),
      runSteps l ((reset ext s).1) = .ok sN →
      sN.curr_time = (l.length : ℚ) * a.timestep) := by
  obtain ⟨rdef, tdef, interval, acts, _, _, _, _, _, _, _, _, _, hs⟩ :=
    nmfInit_ok_inv h
  subst hs
  refine ⟨rfl, rfl, ?_, ?_⟩
  · intro e2 act t r hstep
    obtain ⟨_, hr⟩ := step_ok_elim hstep
    rw [hr]
    simp [stepState]
  · intro l sN hrun
    obtain ⟨hc, _⟩ := runSteps_clock l _ sN hrun
    rw [hc]
    show (0 : ℚ) + (l.length : ℚ) * a.timestep = (l.length : ℚ) * a.timestep
    ring

/-- C4 witness: the standard construction has clock zero, resetting keeps it
zero, and three zero-action steps leave the clock at three timesteps. -/
theorem C4_simulation_clock_witness :
    stdState.curr_time = 0 ∧
    ((reset toyExt stdState).1).curr_time = 0 ∧
    c4RunState.curr_time = (c4Steps.length : ℚ) * stdArgs.timestep :=
  ⟨(C4_simulation_clock toyWorld stdArgs stdState toyExt rfl).1,
   (C4_simulation_clock toyWorld stdArgs stdState toyExt rfl).2.1,
   (C4_simulation_clock toyWorld stdArgs stdState toyExt rfl).2.2.2
     c4Steps c4RunState rfl⟩

/-- C7: the initial pose actually applied (at construction, and re-applied by
`reset()`) is the loaded pose mapping restricted to joints of the
actuated-DoF list; an actuated joint absent from the pose mapping is left at
the engine's default angle and causes no error. -/
theorem C7_initial_pose_filtered (w : ExternalWorld) (a : InitArgs)
    (s : EnvState) (ext : Ext) (h : nmfInit w a = .ok s)
    (hjm : s.actuators.map Actuator.joint = a.actuated_joints) :
    (∀ (j : String) (v : ℚ), j ∈ a.actuated_joints →
      lookupD (poseLoaded w a) j = some v →
      s.qpos j = v ∧ ((reset ext s).1).qpos j = v) ∧
    (∀ (j : String), j ∈ a.actuated_joints →
      lookupD (poseLoaded w a) j = none →
      s.qpos j = w.defaultQpos j ∧
      ((reset ext s).1).qpos j = w.defaultQpos j) := by
  obtain ⟨rdef, tdef, interval, acts, _, _, _, _, _, _, _, _, _, hs⟩ :=
    nmfInit_ok_inv h
  subst hs
  have hacts : acts.map Actuator.joint = a.actuated_joints := hjm
  constructor
  · intro j v hj hv
    have hcont : a.actuated_joints.contains j = true := by simpa using hj
    have hvf : lookupD (poseFiltered w a) j = some v := by
      unfold poseFiltered
      rw [lookupD_filter_key (poseLoaded w a) _ j hcont]
      exact hv
    have hqr : setInitPoseQpos w.defaultQpos acts a.actuated_joints
        (poseFiltered w a) j = v := by
      apply setInitPoseQpos_some a.actuated_joints (poseFiltered w a) j v
        hcont hvf
      rw [hacts]
      exact hj
    exact ⟨hqr, hqr⟩
  · intro j hj hnone
    have hcont : a.actuated_joints.contains j = true := by simpa using hj
    have hvf : lookupD (poseFiltered w a) j = none := by
      unfold poseFiltered
      rw [lookupD_filter_key (poseLoaded w a) _ j hcont]
      exact hnone
    have hqr : setInitPoseQpos w.defaultQpos acts a.actuated_joints
        (poseFiltered w a) j = w.defaultQpos j :=
      setInitPoseQpos_none a.actuated_joints (poseFiltered w a) j hvf acts
        w.defaultQpos
    exact ⟨hqr, hqr⟩

/-- C7 witness: in the toy world the default pose file covers only `jA`;
construction succeeds, `jA` is set to the converted pose angle, and `jB`
stays at the engine default, both initially and after a reset. -/
theorem C7_initial_pose_filtered_witness :
    (stdState.qpos "jA" = toyWorld.deg2rad 30 ∧
     ((reset toyExt stdState).1).qpos "jA" = toyWorld.deg2rad 30) ∧
    (stdState.qpos "jB" = toyWorld.defaultQpos "jB" ∧
     ((reset toyExt stdState).1).qpos "jB" = toyWorld.defaultQpos "jB") :=
  ⟨(C7_initial_pose_filtered toyWorld stdArgs stdState toyExt rfl rfl).1
      "jA" (toyWorld.deg2rad 30) (by decide) rfl,
   (C7_initial_pose_filtered toyWorld stdArgs stdState toyExt rfl rfl).2
      "jB" (by decide) rfl⟩

/-- C5: every observation returned by `reset()` or `step()` has a `'joints'`
matrix of shape (3, numDoF) whose columns follow the actuated-DoF list order,
with the torque entry of column i equal to the sum of the three
actuator-force sensor readings of the i-th joint multiplied by `1e-9`; a
`'fly'` matrix of shape (4, 3); and the accompanying info mapping is the
empty mapping. -/
theorem C5_observation_contract (w : ExternalWorld) (a : InitArgs)
    (s : EnvState) (ext : Ext) (h : nmfInit w a = .ok s)
    (hp : (ext.readBody (.framepos "thorax_pos" "Thorax")).length = 3)
    (hv : (ext.readBody (.framelinvel "thorax_linvel" "Thorax")).length = 3)
    (hq : ∀ l, (ext.quatToEuler l).length = 3)
    (ha : (ext.readBody (.frameangvel "thorax_angvel" "Thorax")).length = 3) :
    (∀ (o : Obs),
      (o = (reset ext s).2.1
        ∨ ∃ (act : List ℚ) (r : EnvState × Obs × Dict PyVal),
            step ext act s = .ok r ∧ o = r.2.1) →
      o.joints.length = 3 ∧
      (∀ row ∈ o.joints, row.length = a.actuated_joints.length) ∧
      (∀ (i : ℕ) (hi : i < a.actuated_joints.length),
        (o.joints.getD 2 []).getD i 0 =
          (ext.read (.actuatorfrc
              ("actuatorfrc_position_" ++ a.actuated_joints.get ⟨i, hi⟩)
              ("actuator_position_" ++ a.actuated_joints.get ⟨i, hi⟩))
           + ext.read (.actuatorfrc
              ("actuatorfrc_velocity_" ++ a.actuated_joints.get ⟨i, hi⟩)
              ("actuator_velocity_" ++ a.actuated_joints.get ⟨i, hi⟩))
           + ext.read (.actuatorfrc
              ("actuatorfrc_motor_" ++ a.actuated_joints.get ⟨i, hi⟩)
              ("actuator_torque_" ++ a.actuated_joints.get ⟨i, hi⟩)))
          * (1 / 1000000000)) ∧
      o.fly.length = 4 ∧
      (∀ row ∈ o.fly, row.length = 3)) ∧
    (reset ext s).2.2 = [] ∧
    (∀ (act : List ℚ) (r : EnvState × Obs × Dict PyVal),
      step ext act s = .ok r → r.2.2 = []) := by
  obtain ⟨rdef, tdef, interval, acts, _, _, _, _, _, _, _, _, _, hs⟩ :=
    nmfInit_ok_inv h
  subst hs
  refine ⟨?_, rfl, ?_⟩
  · intro o ho
    rcases ho with ho | ⟨act, r, hstep, ho⟩
    · subst ho
      obtain ⟨g1, g2, g4, g5⟩ := getObservation_shape ext
        ((reset ext (buildState w a rdef tdef interval acts)).1) rfl hp hv hq ha
      refine ⟨g1, g2, ?_, g4, g5⟩
      intro i hi
      obtain ⟨_, _, e3⟩ := getObservation_row_entry ext
        ((reset ext (buildState w a rdef tdef interval acts)).1) rfl i hi
      show ((getObservation ext
        ((reset ext (buildState w a rdef tdef interval acts)).1)).joints.getD
          2 []).getD i 0 = _
      rw [e3]
      simp [sensorsOf]
      rfl
    · obtain ⟨_, hr⟩ := step_ok_elim hstep
      subst hr
      subst ho
      obtain ⟨g1, g2, g4, g5⟩ := getObservation_shape ext
        (stepState ext act (buildState w a rdef tdef interval acts)) rfl
        hp hv hq ha
      refine ⟨g1, g2, ?_, g4, g5⟩
      intro i hi
      obtain ⟨_, _, e3⟩ := getObservation_row_entry ext
        (stepState ext act (buildState w a rdef tdef interval acts)) rfl i hi
      show ((getObservation ext
        (stepState ext act (buildState w a rdef tdef interval acts))).joints.getD
          2 []).getD i 0 = _
      rw [e3]
      simp [sensorsOf]
      rfl
  · intro act r hstep
    obtain ⟨_, hr⟩ := step_ok_elim hstep
    rw [hr]
    rfl

/-- C5 witness: the standard construction's reset observation has a (3, 2)
joints matrix, a (4, 3) fly matrix, and an empty info mapping. -/
theorem C5_observation_contract_witness :
    ((reset toyExt stdState).2.1).joints.length = 3 ∧
    ((reset toyExt stdState).2.1).fly.length = 4 ∧
    (reset toyExt stdState).2.2 = [] := by
  have hmain := C5_observation_contract toyWorld stdArgs stdState toyExt rfl
    rfl rfl (fun l => rfl) rfl
  have hobs := hmain.1 ((reset toyExt stdState).2.1) (Or.inl rfl)
  exact ⟨hobs.1, hobs.2.2.2.1, hmain.2.1⟩

/-- C6: the actuated-DoF list fixes one ordering used on both sides of the
interface: the i-th resolved actuator is the one looked up for the i-th
joint, step() writes the i-th action entry as the i-th control target, and
the i-th observation column is extracted from the sensors referencing the
i-th joint. -/
theorem C6_ordering_consistent (w : ExternalWorld) (a : InitArgs)
    (s : EnvState) (ext : Ext) (h : nmfInit w a = .ok s) :
    s.actuators.length = a.actuated_joints.length ∧
    (∀ (i : ℕ) (h1 : i < a.actuated_joints.length)
       (h2 : i < s.actuators.length),
       findActuator w.model
         (actuatorName a.control (a.actuated_joints.get ⟨i, h1⟩))
         = some (s.actuators.get ⟨i, h2⟩)) ∧
    (∀ (act : List ℚ) (r : EnvState × Obs × Dict PyVal),
      step ext act s = .ok r →
      r.1.ctrl = act ∧
      (∀ (i : ℕ) (h1 : i < a.actuated_joints.length),
        (r.2.1.joints.getD 0 []).getD i 0 =
          ext.read (.jointpos
            ("jointpos_" ++ a.actuated_joints.get ⟨i, h1⟩)
            (a.actuated_joints.get ⟨i, h1⟩)) ∧
        (r.2.1.joints.getD 1 []).getD i 0 =
          ext.read (.jointvel
            ("jointvel_" ++ a.actuated_joints.get ⟨i, h1⟩)
            (a.actuated_joints.get ⟨i, h1⟩)))) := by
  obtain ⟨rdef, tdef, interval, acts, _, _, _, _, _, _, _, _, hacts, hs⟩ :=
    nmfInit_ok_inv h
  subst hs
  have hlen : acts.length = a.actuated_joints.length := by
    have := sequenceO_length _ _ hacts
    simpa [resolveActuators] using this
  refine ⟨hlen, ?_, ?_⟩
  · intro i h1 h2
    have h3 : i < (resolveActuators w.model a.control a.actuated_joints).length := by
      simpa [resolveActuators] using h1
    show findActuator w.model
      (actuatorName a.control (a.actuated_joints.get ⟨i, h1⟩))
      = some (acts.get ⟨i, h2⟩)
    rw [← sequenceO_get _ _ hacts i h3 h2]
    simp [resolveActuators]
  · intro act r hstep
    obtain ⟨_, hr⟩ := step_ok_elim hstep
    subst hr
    refine ⟨rfl, ?_⟩
    intro i h1
    obtain ⟨e0, e1, _⟩ := getObservation_row_entry ext
      (stepState ext act (buildState w a rdef tdef interval acts)) rfl i h1
    constructor
    · show ((getObservation ext (stepState ext act
        (buildState w a rdef tdef interval acts))).joints.getD 0 []).getD i 0
        = _
      rw [e0]
      rfl
    · show ((getObservation ext (stepState ext act
        (buildState w a rdef tdef interval acts))).joints.getD 1 []).getD i 0
        = _
      rw [e1]
      rfl

/-- C6 witness: the standard construction resolves two actuators for two
joints, and a concrete step call writes the action vector as the control
vector. -/
theorem C6_ordering_consistent_witness :
    stdState.actuators.length = stdArgs.actuated_joints.length ∧
    c6Step.1.ctrl = [5, 6] :=
  ⟨(C6_ordering_consistent toyWorld stdArgs stdState toyExt rfl).1,
   ((C6_ordering_consistent toyWorld stdArgs stdState toyExt rfl).2.2
     [5, 6] c6Step rfl).1⟩

/-- C8 counterexample: the claim says an explicit `save_video()` call (or
`close()` in recording mode) drains the frame buffer, but neither empties
it: the buffered frame survives both calls. -/
theorem C8_save_video_does_not_drain :
    ((save_video c8State).1).frames = [[1]] ∧
    ((close c8State).1).frames = [[1]] ∧
    ([[1]] : List Frame) ≠ [] :=
  ⟨rfl, rfl, by simp⟩

/-- C8 (amended): the frame buffer is emptied on every `reset()`; `step()`
leaves it unchanged; `render()` only ever appends to it; `save_video()` and
`close()` write it out but leave the environment state — and hence the
buffer — unchanged (the buffer is emptied only by `reset()`). -/
theorem C8_amended_frame_buffer (ext : Ext) (s : EnvState) :
    ((reset ext s).1).frames = [] ∧
    (∀ (act : List ℚ) (r : EnvState × Obs × Dict PyVal),
      step ext act s = .ok r → r.1.frames = s.frames) ∧
    (∀ (s2 : EnvState), render ext s = .ok s2 →
      ∃ t, s2.frames = s.frames ++ t) ∧
    (save_video s).1 = s ∧
    (close s).1 = s := by
  refine ⟨rfl, ?_, ?_, rfl, ?_⟩
  · intro act r hstep
    obtain ⟨_, hr⟩ := step_ok_elim hstep
    rw [hr]
    rfl
  · intro s2 hrender
    unfold render at hrender
    split at hrender
    · injection hrender with hh
      exact ⟨[], by rw [← hh]; simp⟩
    · split at hrender
      · injection hrender with hh
        exact ⟨[], by rw [← hh]; simp⟩
      · split at hrender
        · split at hrender
          next wd ht heq =>
            injection hrender with hh
            exact ⟨[ext.rast (wd, ht)], by rw [← hh]⟩
          next hne => simp at hrender
        · simp at hrender
  · unfold close
    by_cases hm : s.render_mode = "saved"
    · rw [if_pos hm]
      cases hod : s.output_dir <;> rfl
    · rw [if_neg hm]

/-- C8 amended witness: resetting the recording state empties the buffer;
`save_video` leaves the state unchanged; a successful render appends. -/
theorem C8_amended_frame_buffer_witness :
    ((reset toyExt c8State).1).frames = [] ∧
    (save_video c8State).1 = c8State ∧
    (∃ t, c8RenderState.frames = c8State.frames ++ t) :=
  ⟨(C8_amended_frame_buffer toyExt c8State).1,
   (C8_amended_frame_buffer toyExt c8State).2.2.2.1,
   (C8_amended_frame_buffer toyExt c8State).2.2.1 c8RenderState rfl⟩

/-- C9: `render()` in headless mode never changes state; in `'saved'` mode it
appends a newly rasterized frame at the configured window size and moves the
last-recorded-time marker to the current time exactly when the current time
has reached the last recorded time plus the interval, and otherwise changes
nothing; the interval of a constructed non-headless environment is
`playspeed / fps`. -/
theorem C9_render_gating (ext : Ext) (s : EnvState) :
    (s.render_mode = "headless" → render ext s = .ok s) ∧
    (∀ (wd ht : ℚ), s.render_mode = "saved" →
      lookupD s.render_config "window_size" = some (.tup [.num wd, .num ht]) →
      (ltGate s.curr_time s.last_render_time s.eff_render_interval = false →
        render ext s = .ok { s with
          frames := s.frames ++ [ext.rast (wd, ht)]
          last_render_time := some s.curr_time }) ∧
      (ltGate s.curr_time s.last_render_time s.eff_render_interval = true →
        render ext s = .ok s)) ∧
    (∀ (w2 : ExternalWorld) (a2 : InitArgs) (s2 : EnvState) (p f : ℚ),
      nmfInit w2 a2 = .ok s2 → a2.render_mode ≠ "headless" →
      lookupD s2.render_config "playspeed" = some (.num p) →
      lookupD s2.render_config "fps" = some (.num f) →
      s2.eff_render_interval = p / f) := by
  refine ⟨?_, ?_, ?_⟩
  · intro hm
    unfold render
    rw [if_pos hm]
  · intro wd ht hm hws
    have hmh : s.render_mode ≠ "headless" := by rw [hm]; decide
    constructor
    · intro hgate
      unfold render
      rw [if_neg hmh, hgate]
      simp [hm, hws]
    · intro hgate
      unfold render
      rw [if_neg hmh, hgate]
      simp
  · intro w2 a2 s2 p f h2 hmode hp2 hf2
    obtain ⟨rdef, tdef, interval, acts, _, _, _, _, _, _, hint, _, _, hs⟩ :=
      nmfInit_ok_inv h2
    subst hs
    unfold effInterval at hint
    rw [if_neg hmode] at hint
    have hp3 : lookupD (updateD rdef a2.render_config) "playspeed"
        = some (.num p) := hp2
    have hf3 : lookupD (updateD rdef a2.render_config) "fps"
        = some (.num f) := hf2
    simp only [hp3, hf3] at hint
    split at hint
    · simp at hint
    · injection hint with hx
      show interval = p / f
      exact hx.symm

/-- C9 witness: a first render in a fresh recording state appends one frame
at the default 640x480 window and stamps the marker; a headless render is the
identity; the standard construction's interval is `1/60`. -/
theorem C9_render_gating_witness :
    render toyExt c9State = .ok { c9State with
      frames := c9State.frames ++ [toyExt.rast (640, 480)]
      last_render_time := some c9State.curr_time } ∧
    render toyExt headlessState = .ok headlessState ∧
    stdState.eff_render_interval = 1 / 60 :=
  ⟨((C9_render_gating toyExt c9State).2.1 640 480 rfl rfl).1 rfl,
   (C9_render_gating toyExt headlessState).1 rfl,
   (C9_render_gating toyExt stdState).2.2 toyWorld stdArgs stdState 1 60 rfl
     (by decide) rfl rfl⟩

/-- C10: the constructor deep-copies the module-level default configuration
dictionary before merging the caller's overrides into the copy (caller
values taking precedence); neither the module-level defaults nor the
caller's dictionary are mutated, and the overrides given to one instance do
not affect the defaults seen by a later instance. -/
theorem C10_deepcopy_then_update (h : PyHeap) (defaultIdx userIdx : ℕ)
    (hd : defaultIdx < h.cells.length) (hu : userIdx < h.cells.length) :
    getCell (initBundleConfig h defaultIdx userIdx).1 defaultIdx
      = getCell h defaultIdx ∧
    getCell (initBundleConfig h defaultIdx userIdx).1 userIdx
      = getCell h userIdx ∧
    getCell (initBundleConfig h defaultIdx userIdx).1
        (initBundleConfig h defaultIdx userIdx).2
      = updateD (getCell h defaultIdx) (getCell h userIdx) ∧
    (∀ (k : String) (v : PyVal), (keysD (getCell h userIdx)).Nodup →
      lookupD (getCell h userIdx) k = some v →
      lookupD (getCell (initBundleConfig h defaultIdx userIdx).1
        (initBundleConfig h defaultIdx userIdx).2) k = some v) ∧
    (∀ (u2 : ℕ), u2 < (initBundleConfig h defaultIdx userIdx).1.cells.length →
      getCell (initBundleConfig (initBundleConfig h defaultIdx userIdx).1
          defaultIdx u2).1
        (initBundleConfig (initBundleConfig h defaultIdx userIdx).1
          defaultIdx u2).2
      = updateD (getCell h defaultIdx)
          (getCell (initBundleConfig h defaultIdx userIdx).1 u2)) := by
  refine ⟨initBundleConfig_frame h defaultIdx userIdx defaultIdx hd,
    initBundleConfig_frame h defaultIdx userIdx userIdx hu, ?_, ?_, ?_⟩
  · exact initBundleConfig_merged h defaultIdx userIdx hd hu
  · intro k v hnd hv
    rw [initBundleConfig_merged h defaultIdx userIdx hd hu]
    exact lookupD_updateD_of_nodup _ _ k v hnd hv
  · intro u2 hu2
    have hd2 : defaultIdx < (initBundleConfig h defaultIdx userIdx).1.cells.length := by
      rw [initBundleConfig_length]
      omega
    rw [initBundleConfig_merged _ defaultIdx u2 hd2 hu2,
      initBundleConfig_frame h defaultIdx userIdx defaultIdx hd]

/-- C10 witness: with the `'saved'` render defaults at address 0 and a
caller dictionary overriding `playspeed` at address 1, the defaults cell and
the caller cell survive construction unchanged and the merged configuration
holds the caller's value. -/
theorem C10_deepcopy_then_update_witness :
    getCell (initBundleConfig c10Heap 0 1).1 0 = getCell c10Heap 0 ∧
    getCell (initBundleConfig c10Heap 0 1).1 1 = getCell c10Heap 1 ∧
    lookupD (getCell (initBundleConfig c10Heap 0 1).1
      (initBundleConfig c10Heap 0 1).2) "playspeed" = some (.num 2) :=
  ⟨(C10_deepcopy_then_update c10Heap 0 1 (by decide) (by decide)).1,
   (C10_deepcopy_then_update c10Heap 0 1 (by decide) (by decide)).2.1,
   (C10_deepcopy_then_update c10Heap 0 1 (by decide) (by decide)).2.2.2.1
     "playspeed" (.num 2) (by decide) rfl⟩

end FlyGym
